import Mathlib

/-!
Shallow embedding of the DataHub SQL metadata-extraction pipeline
(`metadata-ingestion/src/datahub/ingestion/source/sql/sql_common.py`).

Python dicts are modelled as association lists with insertion-order
semantics (assignment to an existing key replaces the value in place,
otherwise appends).  Python exceptions are modelled by explicit result
types.  The mutable `SQLSourceReport` / stale-entity tracker state is
modelled as an event trace: every report counter update, warning,
failure, tracker registration and yielded work unit becomes one event,
in the order the Python code performs them.
-/

namespace DataHub

/-! ## Type mapper (`_field_type_mapping`, `register_custom_type`, `get_column_type`) -/

/-- The canonical semantic types used as values of `_field_type_mapping`
(`NumberTypeClass`, `StringTypeClass`, ..., `NullTypeClass`). -/
inductive CanonicalType
  | Number
  | Boolean
  | Enum
  | Bytes
  | Array
  | Str
  | Date
  | Time
  | Record
  | Null
  deriving DecidableEq, Repr

/-- A SQLAlchemy column-type *value*, represented by the method-resolution
order of its class: `isinstance(value, cls)` holds exactly when `cls`
appears in the value's MRO.  Classes are identified by numeric ids. -/
structure ColumnTypeVal where
  mro : List Nat
  deriving DecidableEq, Repr

/-- `isinstance(column_type, sql_type)` for the embedded class ids. -/
def isInstanceOf (ct : ColumnTypeVal) (cls : Nat) : Bool :=
  ct.mro.contains cls

/- Class ids for the SQLAlchemy type classes appearing in
`_field_type_mapping` and `_known_unknown_field_types`, in source order. -/
namespace TypeIds
def Integer : Nat := 0
def Numeric : Nat := 1
def Boolean : Nat := 2
def Enum : Nat := 3
def Binary : Nat := 4
def LargeBinary : Nat := 5
def PickleType : Nat := 6
def ARRAY : Nat := 7
def Str : Nat := 8
def Date : Nat := 9
def DATE : Nat := 10
def Time : Nat := 11
def DateTime : Nat := 12
def DATETIME : Nat := 13
def TIMESTAMP : Nat := 14
def JSON : Nat := 15
def BYTEA : Nat := 16
def DOUBLE_PRECISION : Nat := 17
def INET : Nat := 18
def MACADDR : Nat := 19
def MONEY : Nat := 20
def OID : Nat := 21
def REGCLASS : Nat := 22
def PG_TIMESTAMP : Nat := 23
def PG_TIME : Nat := 24
def INTERVAL : Nat := 25
def BIT : Nat := 26
def UUID : Nat := 27
def TSVECTOR : Nat := 28
def PG_ENUM : Nat := 29
def NullType : Nat := 30
def IntervalGeneric : Nat := 31
def CLOB : Nat := 32
end TypeIds

/-- The global type-mapping state: the ordered dict `_field_type_mapping`
and the set `_known_unknown_field_types` (kept as an insertion-ordered
list; membership is what matters). -/
structure TypeRegistry where
  mapping : List (Nat × CanonicalType)
  knownUnknown : List Nat
  deriving DecidableEq, Repr

/-- Initial contents of `_field_type_mapping`, in source declaration order. -/
def initialFieldTypeMapping : List (Nat × CanonicalType) :=
  [ (TypeIds.Integer, .Number)
  , (TypeIds.Numeric, .Number)
  , (TypeIds.Boolean, .Boolean)
  , (TypeIds.Enum, .Enum)
  , (TypeIds.Binary, .Bytes)
  , (TypeIds.LargeBinary, .Bytes)
  , (TypeIds.PickleType, .Bytes)
  , (TypeIds.ARRAY, .Array)
  , (TypeIds.Str, .Str)
  , (TypeIds.Date, .Date)
  , (TypeIds.DATE, .Date)
  , (TypeIds.Time, .Time)
  , (TypeIds.DateTime, .Time)
  , (TypeIds.DATETIME, .Time)
  , (TypeIds.TIMESTAMP, .Time)
  , (TypeIds.JSON, .Record)
  , (TypeIds.BYTEA, .Bytes)
  , (TypeIds.DOUBLE_PRECISION, .Number)
  , (TypeIds.INET, .Str)
  , (TypeIds.MACADDR, .Str)
  , (TypeIds.MONEY, .Number)
  , (TypeIds.OID, .Str)
  , (TypeIds.REGCLASS, .Bytes)
  , (TypeIds.PG_TIMESTAMP, .Time)
  , (TypeIds.PG_TIME, .Time)
  , (TypeIds.INTERVAL, .Time)
  , (TypeIds.BIT, .Bytes)
  , (TypeIds.UUID, .Str)
  , (TypeIds.TSVECTOR, .Bytes)
  , (TypeIds.PG_ENUM, .Enum)
  , (TypeIds.NullType, .Null)
  ]

/-- Initial contents of `_known_unknown_field_types`. -/
def initialKnownUnknown : List Nat :=
  [TypeIds.IntervalGeneric, TypeIds.CLOB]

/-- The module-level registry state at import time. -/
def initialRegistry : TypeRegistry :=
  { mapping := initialFieldTypeMapping, knownUnknown := initialKnownUnknown }

/-- Python `d[k] = v` on an insertion-ordered dict: replace the value in
place when the key is present, otherwise append a new entry. -/
def dictInsertNat (m : List (Nat × CanonicalType)) (k : Nat) (v : CanonicalType) :
    List (Nat × CanonicalType) :=
  if m.any (fun p => p.1 == k) then
    m.map (fun p => if p.1 == k then (k, v) else p)
  else
    m ++ [(k, v)]

/-- `register_custom_type(tp, output)`: with an output class, assign
`_field_type_mapping[tp] = output`; with `output=None`, add `tp` to
`_known_unknown_field_types`. -/
def register_custom_type (st : TypeRegistry) (tp : Nat) (output : Option CanonicalType) :
    TypeRegistry :=
  match output with
  | some o => { st with mapping := dictInsertNat st.mapping tp o }
  | none =>
      { st with
        knownUnknown :=
          if st.knownUnknown.contains tp then st.knownUnknown
          else st.knownUnknown ++ [tp] }

/-- First key of `_field_type_mapping` (in dict order) that the column
type is an instance of, with its mapped value. -/
def findMapped (m : List (Nat × CanonicalType)) (ct : ColumnTypeVal) :
    Option CanonicalType :=
  match m with
  | [] => none
  | (k, v) :: rest => if isInstanceOf ct k then some v else findMapped rest ct

/-- `get_column_type(sql_report, dataset_name, column_type)`: scan
`_field_type_mapping` in order (first `isinstance` match wins), then
`_known_unknown_field_types`; if nothing matches, record a warning keyed
by the dataset name and degrade to `NullTypeClass`.  Returns the mapped
canonical type together with the (key, reason) warning, if any. -/
def get_column_type (reg : TypeRegistry) (dataset_name : String) (ct : ColumnTypeVal) :
    CanonicalType × Option (String × String) :=
  match findMapped reg.mapping ct with
  | some tc => (tc, none)
  | none =>
      if reg.knownUnknown.any (fun k => isInstanceOf ct k) then
        (CanonicalType.Null, none)
      else
        (CanonicalType.Null,
         some (dataset_name, "unable to map type to metadata schema"))

/-! ## Configuration (`SQLAlchemyConfig`) -/

/-- Modelled from the spec: an allow/deny pattern
(`datahub.configuration.common.AllowDenyPattern`, outside the embedded
sources) decides whether an identifier is admitted; it is represented
here by its decision function. -/
structure AllowDenyPattern where
  allowedFn : String → Bool

/-- `pattern.allowed(name)`. -/
def AllowDenyPattern.allowed (p : AllowDenyPattern) (s : String) : Bool :=
  p.allowedFn s

/-- `AllowDenyPattern.allow_all()`. -/
def AllowDenyPattern.allowAll : AllowDenyPattern :=
  { allowedFn := fun _ => true }

/-- The profiling sub-config fields read by the embedded code
(`GEProfilingConfig`).  Timestamps and day counts are modelled as
integers. -/
structure GEProfilingConfig where
  enabled : Bool
  profile_if_updated_since_days : Option Int
  profile_table_size_limit : Option Int
  profile_table_row_limit : Option Int
  partition_profiling_enabled : Bool
  partition_datetime : Option Int
  report_dropped_profiles : Bool

/-- The `SQLAlchemyConfig` fields read by the embedded code.  `domain` is
an insertion-ordered dict of domain key to pattern. -/
structure SQLAlchemyConfig where
  schema_pattern : AllowDenyPattern
  table_pattern : AllowDenyPattern
  view_pattern : AllowDenyPattern
  profile_pattern : AllowDenyPattern
  domain : List (String × AllowDenyPattern)
  include_views : Bool
  include_tables : Bool
  include_table_location_lineage : Bool
  profiling : GEProfilingConfig
  platform_instance : Option String
  env : String

/-! ### Construction-time validator
(`view_pattern_is_table_pattern_unless_specified`) -/

/-- The raw pydantic values dict as seen by the `pre=True` root
validator: presence of the `table_pattern` / `view_pattern` keys.  A
user-supplied pattern value is a non-empty mapping and hence truthy, so
Python truthiness of `values.get(key)` coincides with key presence. -/
structure RawPatternValues where
  table_pattern : Option AllowDenyPattern
  view_pattern : Option AllowDenyPattern

/-- `view_pattern_is_table_pattern_unless_specified`: if `table_pattern`
is given and `view_pattern` is not, copy `table_pattern` into
`view_pattern`; runs once, before field parsing. -/
def view_pattern_is_table_pattern_unless_specified (v : RawPatternValues) :
    RawPatternValues :=
  if v.table_pattern.isSome && !v.view_pattern.isSome then
    { v with view_pattern := v.table_pattern }
  else
    v

/-- The constructed pattern fields of a `SQLAlchemyConfig`. -/
structure ConstructedPatterns where
  table_pattern : AllowDenyPattern
  view_pattern : AllowDenyPattern

/-- Pydantic construction of the two pattern fields: run the `pre=True`
validator on the raw values, then apply the field defaults
(`AllowDenyPattern.allow_all()`) for absent keys. -/
def constructPatterns (v : RawPatternValues) : ConstructedPatterns :=
  let v' := view_pattern_is_table_pattern_unless_specified v
  { table_pattern := v'.table_pattern.getD AllowDenyPattern.allowAll
    view_pattern := v'.view_pattern.getD AllowDenyPattern.allowAll }

/-! ## Work units, events, report -/

/-- `MISSING_COLUMN_INFO`. -/
def MISSING_COLUMN_INFO : String := "missing column information"

/-- The dataset-properties aspect (`DatasetPropertiesClass`). -/
structure DatasetProps where
  name : String
  description : Option String
  customProperties : List (String × String)
  deriving DecidableEq, Repr

/-- A schema field (`SchemaField`): path, canonical type, native type
string, nullability, description, primary-key flag, tags. -/
structure SchemaFieldM where
  fieldPath : String
  fieldType : CanonicalType
  nativeDataType : String
  nullable : Bool
  description : Option String
  isPartOfKey : Bool
  globalTags : List String
  deriving DecidableEq, Repr

/-- A foreign-key constraint (`ForeignKeyConstraint`). -/
structure FKConstraintM where
  name : String
  foreignFields : List String
  sourceFields : List String
  foreignDataset : String
  deriving DecidableEq, Repr

/-- The schema-metadata aspect (`SchemaMetadata`), restricted to the
fields the embedded code sets. -/
structure SchemaMetaM where
  schemaName : String
  platformUrn : String
  fields : List SchemaFieldM
  foreignKeys : Option (List FKConstraintM)
  deriving DecidableEq, Repr

/-- The work units the embedded code can yield. -/
inductive WorkUnit
  /-- upstream-lineage aspect for a table with a storage location -/
  | lineage (id : String) (entityUrn : String) (upstream : String)
  /-- `add_dataset_to_container` work unit -/
  | containerAdd (datasetUrn : String) (db : String) (schema : String)
  /-- the main MCE snapshot work unit (status + properties + schema) -/
  | mce (id : String) (entityUrn : String) (props : DatasetProps)
        (schemaMeta : Option SchemaMetaM)
  /-- data-platform-instance aspect -/
  | dpi (entityUrn : String)
  /-- subtypes aspect -/
  | subtypes (id : String) (entityUrn : String) (typeNames : List String)
  /-- view-properties aspect -/
  | viewProps (entityUrn : String) (viewLogic : String)
  /-- domain-association aspect -/
  | domainAssoc (entityUrn : String) (domainUrn : String)
  deriving DecidableEq, Repr

/-- One observable effect of the scan, in program order: report counter
updates, warnings/failures, stale-entity-tracker registrations, adapter
column fetches, profiling decisions, and yielded work units. -/
inductive Ev
  /-- `report_entity_scanned(name, ent_type)` -/
  | scanned (name : String) (entType : String)
  /-- `report_dropped(name)` -/
  | dropped (name : String)
  /-- `report_warning(key, reason)` -/
  | warning (key : String) (reason : String)
  /-- `report_failure(key, reason)` -/
  | failure (key : String) (reason : String)
  /-- `stale_entity_removal_handler.add_entity_to_state(kind, urn)` -/
  | addState (kind : String) (urn : String)
  /-- a call of `inspector.get_columns(table, schema)` -/
  | colFetch (table : String) (schema : String)
  /-- `report_entity_profiled(name)` -/
  | profiled (name : String)
  /-- a yielded `GEProfilerRequest` -/
  | profileRequest (prettyName : String) (schema : String) (table : String)
      (partition : Option String) (customSql : Option String)
  /-- a yielded work unit -/
  | wu (w : WorkUnit)
  deriving DecidableEq, Repr

/-! ## Capability adapter (inspector) behaviours -/

/-- Result of a Python call that either returns or raises. -/
inductive PyResult (α : Type)
  | ok (a : α)
  | exn (msg : String)
  deriving DecidableEq, Repr

/-- A column record returned by `inspector.get_columns`. -/
structure ColumnRec where
  name : String
  colType : ColumnTypeVal
  nullable : Bool
  comment : Option String
  full_type : Option String
  deriving DecidableEq, Repr

/-- Result of `inspector.get_columns`: a list, a `KeyError` (handled
specially for views), or another exception. -/
inductive ColsResult
  | ok (cols : List ColumnRec)
  | keyError
  | exn (msg : String)
  deriving DecidableEq, Repr

/-- The value of `pk_constraints`: a dict with `constrained_columns`, or
a list (as some dialects such as hive return). -/
inductive PKVal
  | dict (constrained_columns : List String)
  | pylist
  deriving DecidableEq, Repr

/-- A foreign-key record from `inspector.get_foreign_keys`. -/
structure FKRec where
  name : String
  referred_schema : Option String
  referred_table : String
  constrained_columns : List String
  referred_columns : List String
  deriving DecidableEq, Repr

/-- Result of `inspector.get_foreign_keys`: records, a `KeyError`
(degrades to no foreign keys), or another exception. -/
inductive FKResult
  | ok (fks : List FKRec)
  | keyError
  | exn (msg : String)
  deriving DecidableEq, Repr

/-- The description value in the dict returned by `get_table_comment`:
absent, a string, or (for db2) a non-empty tuple of strings. -/
inductive TCText
  | str (s : String)
  | tup (hd : String) (tl : List String)
  deriving DecidableEq, Repr

/-- The dict returned by `inspector.get_table_comment`. -/
structure TableInfo where
  text : Option TCText
  properties : List (String × String)
  deriving DecidableEq, Repr

/-- Result of `inspector.get_table_comment`: a dict,
`NotImplementedError`, `ProgrammingError` (retried with a quoted schema
name), or another exception. -/
inductive TCResult
  | ok (info : TableInfo)
  | notImplemented
  | programmingError
  | exn (msg : String)
  deriving DecidableEq, Repr

/-- Result of `inspector.get_view_definition`: a definition (possibly
`None`), `NotImplementedError`, or another exception. -/
inductive VDefResult
  | ok (d : Option String)
  | notImplemented
  | exn (msg : String)
  deriving DecidableEq, Repr

/-- The per-run capability-adapter handle: the behaviour of every
inspector call the embedded code makes, as a function of its string
arguments.  `db_name` is the result of `get_db_name` (the processed
`engine.url.database`, or the exception raised when it is missing). -/
structure Inspector where
  get_table_names : String → PyResult (List String)
  get_view_names : String → PyResult (List String)
  get_columns : String → String → ColsResult
  get_pk_constraint : String → String → PyResult PKVal
  get_foreign_keys : String → String → FKResult
  get_table_comment : String → String → TCResult
  get_view_definition : String → String → VDefResult
  db_name : PyResult String

/-! ## The source object -/

/-- Result of `generate_profile_candidates`: a candidate list or `None`,
`NotImplementedError` (the base-class behaviour), or another
exception. -/
inductive CandResult
  | ok (cands : Option (List String))
  | notImplemented
  | exn (msg : String)
  deriving DecidableEq, Repr

/-- The overridable hooks and per-run data of a `SQLAlchemySource`:
platform name, configuration, the naming hooks
(`standardize_schema_table_names`, `get_identifier`,
`normalise_dataset_name`), the profiling hooks
(`generate_partition_profiler_query`, `is_table_partitioned`,
`generate_profile_candidates`), the domain-registry resolution
(`domain_registry.get_domain_urn`), and the global type registry
snapshot used by `get_column_type`.  The base-class implementations are
`baseStandardize`, `baseIdentifier` and `baseNormalise` below. -/
structure SourceCtx where
  platform : String
  cfg : SQLAlchemyConfig
  standardize : String → String → String × String
  identifier : String → String → String
  normalise : String → String
  generate_partition_profiler_query :
    String → String → Option Int → Option String × Option String
  is_table_partitioned : Option String → String → String → Option Bool
  generate_profile_candidates : Option Int → String → CandResult
  resolveDomain : String → String
  reg : TypeRegistry

/-- Base `standardize_schema_table_names`: the identity. -/
def baseStandardize (schema entity : String) : String × String :=
  (schema, entity)

/-- Base `get_identifier`: `f"{schema}.{entity}"` (the deprecated
`config.get_identifier` path is absent in the embedded configs). -/
def baseIdentifier (schema entity : String) : String :=
  schema ++ "." ++ entity

/-- Base `normalise_dataset_name`: the identity. -/
def baseNormalise (datasetName : String) : String :=
  datasetName

/-! ## Urn builders -/

/-- Modelled from the spec: `make_dataset_urn_with_platform_instance`
(outside the embedded sources) canonicalizes (platform, name, optional
platform instance, environment) into a single string key; the platform
instance, when present, prefixes the name. -/
def makeDatasetUrn (platform name : String) (inst : Option String)
    (env : String) : String :=
  "urn:li:dataset:(urn:li:dataPlatform:" ++ platform ++ ","
    ++ (match inst with
        | some i => i ++ "." ++ name
        | none => name)
    ++ "," ++ env ++ ")"

/-- Modelled from the spec: `make_data_platform_urn`. -/
def makeDataPlatformUrn (platform : String) : String :=
  "urn:li:dataPlatform:" ++ platform

/-- Modelled from the spec: `make_domain_urn`. -/
def makeDomainUrn (domain : String) : String :=
  "urn:li:domain:" ++ domain

/-! ## Domain tagging (`_gen_domain_urn`) -/

/-- `_gen_domain_urn(dataset_name)`: iterate `config.domain` in
declaration order; every matching pattern overwrites `domain_urn`, so
the last match wins; no match leaves it `None`. -/
def gen_domain_urn (src : SourceCtx) (dataset_name : String) : Option String :=
  src.cfg.domain.foldl
    (fun acc dp =>
      if dp.2.allowed dataset_name then
        some (makeDomainUrn (src.resolveDomain dp.1))
      else acc)
    none

/-- `_get_domain_wu`: emit a domain-association work unit when a domain
pattern matched. -/
def getDomainWu (src : SourceCtx) (dataset_name entity_urn : String) : List Ev :=
  match gen_domain_urn src dataset_name with
  | some du => [.wu (.domainAssoc entity_urn du)]
  | none => []

/-! ## Column and schema-field construction -/

/-- Python `d[k] = v` on a string-keyed insertion-ordered dict. -/
def dictInsertStr (m : List (String × String)) (k v : String) :
    List (String × String) :=
  if m.any (fun p => p.1 == k) then
    m.map (fun p => if p.1 == k then (k, v) else p)
  else
    m ++ [(k, v)]

/-- Python `d.get(k)` / `k in d` / `d[k]` on a string-keyed dict: the
value of the first (and only) entry with the key. -/
def pyDictGet (m : List (String × String)) (k : String) : Option String :=
  (m.find? (fun p => p.1 == k)).map (fun p => p.2)

/-- Stand-in for Python `repr(column["type"])`, used as the fallback
native type string. -/
def reprColumnType (ct : ColumnTypeVal) : String :=
  "SQLAlchemyType" ++ toString ct.mro

/-- `get_schema_fields_for_column`: build one `SchemaField`; the type
mapping may record a warning; the primary-key flag is set only when
`pk_constraints` is a dict listing the column. -/
def get_schema_fields_for_column (src : SourceCtx) (dataset_name : String)
    (column : ColumnRec) (pk_constraints : Option PKVal)
    (tags : Option (List String)) : List Ev × List SchemaFieldM :=
  let tw := get_column_type src.reg dataset_name column.colType
  let tc := tw.1
  let evs := match tw.2 with
    | some kr => [Ev.warning kr.1 kr.2]
    | none => []
  let isPK := match pk_constraints with
    | some (.dict cols) => cols.contains column.name
    | some .pylist => false
    | none => false
  (evs,
   [{ fieldPath := column.name
      fieldType := tc
      nativeDataType := column.full_type.getD (reprColumnType column.colType)
      nullable := column.nullable
      description := column.comment
      isPartOfKey := isPK
      globalTags := (tags.getD []) }])

/-- `get_schema_fields`: fold `get_schema_fields_for_column` over the
columns, with per-column tags looked up in the extra-tags dict. -/
def get_schema_fields (src : SourceCtx) (dataset_name : String)
    (columns : List ColumnRec) (pk_constraints : Option PKVal)
    (tags : Option (List (String × List String))) : List Ev × List SchemaFieldM :=
  match columns with
  | [] => ([], [])
  | c :: rest =>
      let colTags : Option (List String) := match tags with
        | some m => some ((m.lookup c.name).getD [])
        | none => none
      let hd := get_schema_fields_for_column src dataset_name c
                  pk_constraints colTags
      let tl := get_schema_fields src dataset_name rest pk_constraints tags
      (hd.1 ++ tl.1, hd.2 ++ tl.2)

/-! ## Table properties (`get_table_properties`, base class) -/

/-- Description extraction: `table_info.get("text")`, with the db2 tuple
case taking element 0. -/
def extractDescription (t : Option TCText) : Option String :=
  match t with
  | none => none
  | some (.str s) => some s
  | some (.tup hd _) => some hd

/-- Base `get_table_properties`: fetch `inspector.get_table_comment`;
`NotImplementedError` degrades to no description and no properties; a
`ProgrammingError` is retried once with the schema name quoted; any
other exception propagates.  The location is always `None` in the base
class.  Returns `(description, properties, location)` or the raised
message. -/
def get_table_properties (insp : Inspector) (schema table : String) :
    PyResult (Option String × List (String × String) × Option String) :=
  match insp.get_table_comment table schema with
  | .notImplemented => .ok (none, [], none)
  | .exn e => .exn e
  | .ok info =>
      .ok (extractDescription info.text, info.properties, none)
  | .programmingError =>
      match insp.get_table_comment table ("\"" ++ schema ++ "\"") with
      | .ok info => .ok (extractDescription info.text, info.properties, none)
      | .notImplemented => .exn "NotImplementedError"
      | .programmingError => .exn "ProgrammingError"
      | .exn e => .exn e

/-! ## Column fetch (`_get_columns`) -/

/-- `_get_columns`: call `inspector.get_columns`; an empty result records
the `MISSING_COLUMN_INFO` warning with the dataset name as reason; any
exception (including `KeyError`) is swallowed into a warning keyed by
the dataset name, leaving an empty column list. -/
def sqlGetColumns (dataset_name : String) (insp : Inspector)
    (schema table : String) : List Ev × List ColumnRec :=
  match insp.get_columns table schema with
  | .ok cols =>
      if cols.length == 0 then
        ([.colFetch table schema, .warning MISSING_COLUMN_INFO dataset_name], cols)
      else
        ([.colFetch table schema], cols)
  | .keyError =>
      ([.colFetch table schema,
        .warning dataset_name
          "unable to get column information due to an error -> KeyError"], [])
  | .exn e =>
      ([.colFetch table schema,
        .warning dataset_name
          ("unable to get column information due to an error -> " ++ e)], [])

/-! ## Foreign keys (`_get_foreign_keys`, `get_foreign_key_metadata`) -/

/-- `get_foreign_key_metadata`: resolve the referred schema (falsy, i.e.
absent or empty, falls back to the current schema), build the referred
dataset urn via `get_identifier`, and assemble the constraint. -/
def get_foreign_key_metadata (src : SourceCtx) (dataset_urn schema : String)
    (fk : FKRec) : FKConstraintM :=
  let referred_schema := match fk.referred_schema with
    | some s => if s = "" then schema else s
    | none => schema
  let referred_dataset_name := src.identifier referred_schema fk.referred_table
  let foreign_dataset := makeDatasetUrn src.platform referred_dataset_name
    src.cfg.platform_instance src.cfg.env
  { name := fk.name
    foreignFields := fk.referred_columns.map
      (fun f => "urn:li:schemaField:(" ++ foreign_dataset ++ "," ++ f ++ ")")
    sourceFields := fk.constrained_columns.map
      (fun f => "urn:li:schemaField:(" ++ dataset_urn ++ "," ++ f ++ ")")
    foreignDataset := foreign_dataset }

/-- `_get_foreign_keys`: map `get_foreign_key_metadata` over
`inspector.get_foreign_keys`; a `KeyError` degrades to no foreign keys
(debug-logged); other exceptions propagate. -/
def sqlGetForeignKeys (src : SourceCtx) (dataset_urn : String) (insp : Inspector)
    (schema table : String) : PyResult (List FKConstraintM) :=
  match insp.get_foreign_keys table schema with
  | .ok fks => .ok (fks.map (get_foreign_key_metadata src dataset_urn schema))
  | .keyError => .ok []
  | .exn e => .exn e

/-! ## Per-table processing (`_process_table`) -/

/-- `get_schema_metadata`: assemble the schema-metadata aspect;
foreign keys are attached only when non-empty. -/
def get_schema_metadata (dataset_name platform : String)
    (fields : List SchemaFieldM) (foreign_keys : Option (List FKConstraintM)) :
    SchemaMetaM :=
  { schemaName := dataset_name
    platformUrn := makeDataPlatformUrn platform
    fields := fields
    foreignKeys :=
      match foreign_keys with
      | some fks => if fks ≠ [] then some fks else none
      | none => none }

/-- The part of `_process_table` after the entity has been registered
with the stale-entity tracker: table properties, optional
location-lineage work unit, primary/foreign keys, schema fields,
container attachment, main snapshot, platform-instance aspect, subtype
aspect, domain aspect.  Returns the events produced so far together
with the message of an uncaught exception, if one was raised. -/
def processTableAfterReg (src : SourceCtx) (insp : Inspector)
    (dataset_name schema table dataset_urn : String)
    (columns : List ColumnRec) : List Ev × Option String :=
  match get_table_properties insp schema table with
  | .exn e => ([], some e)
  | .ok (description, properties0, location) =>
    let splits := dataset_name.splitOn "."
    let normalised_table := splits.getLastD table
    let properties :=
      if properties0 ≠ [] ∧ normalised_table ≠ table then
        dictInsertStr properties0 "original_table_name" table
      else properties0
    let lineageEvs : List Ev :=
      match location with
      | some loc =>
          if src.cfg.include_table_location_lineage then
            [.wu (.lineage
              (src.platform ++ "-" ++ dataset_urn ++ "-upstreamLineage")
              dataset_urn loc)]
          else []
      | none => []
    -- get_extra_tags: the base class returns None
    match insp.get_pk_constraint table schema with
    | .exn e => (lineageEvs, some e)
    | .ok pk_constraints =>
      match sqlGetForeignKeys src dataset_urn insp schema table with
      | .exn e => (lineageEvs, some e)
      | .ok foreign_keys =>
        let fe := get_schema_fields src dataset_name columns (some pk_constraints) none
        let fieldEvs := fe.1
        let schema_metadata :=
          get_schema_metadata dataset_name src.platform fe.2
            (some foreign_keys)
        match insp.db_name with
        | .exn e => (lineageEvs ++ fieldEvs, some e)
        | .ok db_name =>
          let dataset_properties : DatasetProps :=
            { name := normalised_table
              description := description
              customProperties := properties }
          ( lineageEvs ++ fieldEvs
              ++ [.wu (.containerAdd dataset_urn db_name schema)]
              ++ [.wu (.mce dataset_name dataset_urn dataset_properties
                    (some schema_metadata))]
              ++ (match src.cfg.platform_instance with
                  | some _ => [.wu (.dpi dataset_urn)]
                  | none => [])
              ++ [.wu (.subtypes (dataset_name ++ "-subtypes") dataset_urn
                    ["table"])]
              ++ getDomainWu src dataset_name dataset_urn,
            none )

/-- `_process_table`: fetch columns (exceptions swallowed into
warnings), build the dataset urn, register the entity with the
stale-entity tracker, then run the rest of the per-table pipeline. -/
def processTable (src : SourceCtx) (insp : Inspector)
    (dataset_name schema table : String) : List Ev × Option String :=
  let cc := sqlGetColumns dataset_name insp schema table
  let dataset_urn := makeDatasetUrn src.platform dataset_name
    src.cfg.platform_instance src.cfg.env
  let r := processTableAfterReg src insp dataset_name schema table dataset_urn cc.2
  (cc.1 ++ Ev.addState "table" dataset_urn :: r.1, r.2)

/-! ## The table loop (`loop_tables`) -/

/-- The body of the `for table in inspector.get_table_names(schema)`
loop: standardize the names (rebinding `schema` for the remaining
iterations), compute and normalise the identifier, skip silently when
already seen, report the entity as scanned, drop it when the table
pattern denies it, otherwise process it; an exception from
`_process_table` becomes a warning keyed `f"{schema}.{table}"` and the
loop continues. -/
def loopTablesGo (src : SourceCtx) (insp : Inspector) :
    List String → String → List String → List Ev
  | [], _, _ => []
  | t :: rest, schema, tables_seen =>
    let st := src.standardize schema t
    let schema' := st.1
    let table := st.2
    let dataset_name := src.normalise (src.identifier schema' table)
    if tables_seen.contains dataset_name then
      loopTablesGo src insp rest schema' tables_seen
    else
      let seen' := dataset_name :: tables_seen
      Ev.scanned dataset_name "table" ::
        (if !src.cfg.table_pattern.allowed dataset_name then
          Ev.dropped dataset_name :: loopTablesGo src insp rest schema' seen'
        else
          let pt := processTable src insp dataset_name schema' table
          pt.1
            ++ (match pt.2 with
                | some e =>
                    [Ev.warning (schema' ++ "." ++ table)
                      ("Ingestion error: " ++ e)]
                | none => [])
            ++ loopTablesGo src insp rest schema' seen')

/-- `loop_tables`: enumerate the schema's tables; an exception from the
enumeration is caught at the schema level and reported as a failure
keyed by the schema, producing no further table processing; otherwise
run the loop body with an empty seen-set. -/
def loopTables (src : SourceCtx) (insp : Inspector) (schema : String) : List Ev :=
  match insp.get_table_names schema with
  | .exn e => [.failure schema ("Tables error: " ++ e)]
  | .ok tables => loopTablesGo src insp tables schema []

/-! ## Per-view processing (`_process_view`) -/

/-- `_process_view`: fetch columns (`KeyError` degrades to a warning and
no schema metadata), table properties, and the view definition
(`NotImplementedError` or a `None` result degrade to the empty string);
store the definition and the `is_view` marker in the properties; then
emit container attachment, tracker registration, the main snapshot,
optional platform-instance aspect, subtype aspect, the view-properties
aspect (whenever the `view_definition` key is present, with its value as
the view logic), and the domain aspect.  Returns the events together
with the message of an uncaught exception, if any. -/
def processView (src : SourceCtx) (insp : Inspector)
    (dataset_name schema view : String) : List Ev × Option String :=
  match insp.get_columns view schema with
  | .exn e => ([], some e)
  | colsRes =>
    let ev0sm : List Ev × Option SchemaMetaM :=
      match colsRes with
      | .keyError =>
          ([.warning dataset_name "unable to get schema for this view"], none)
      | .ok cols =>
          let fe := get_schema_fields src dataset_name cols none none
          (fe.1,
           some (get_schema_metadata dataset_name src.platform fe.2 none))
      | .exn _ => ([], none)  -- unreachable: handled above
    let ev0 := ev0sm.1
    let schema_metadata := ev0sm.2
    match get_table_properties insp schema view with
    | .exn e => (ev0, some e)
    | .ok (description, properties0, _) =>
      match insp.get_view_definition view schema with
      | .exn e => (ev0, some e)
      | vd =>
        let view_definition : String :=
          match vd with
          | .ok none => ""
          | .ok (some s) => s
          | .notImplemented => ""
          | .exn _ => ""  -- unreachable: handled above
        let properties :=
          dictInsertStr (dictInsertStr properties0 "view_definition" view_definition)
            "is_view" "True"
        let dataset_urn := makeDatasetUrn src.platform dataset_name
          src.cfg.platform_instance src.cfg.env
        match insp.db_name with
        | .exn e => (ev0, some e)
        | .ok db_name =>
          let dataset_properties : DatasetProps :=
            { name := view
              description := description
              customProperties := properties }
          ( ev0
              ++ [.wu (.containerAdd dataset_urn db_name schema)]
              ++ [.addState "view" dataset_urn]
              ++ [.wu (.mce dataset_name dataset_urn dataset_properties
                    schema_metadata)]
              ++ (match src.cfg.platform_instance with
                  | some _ => [.wu (.dpi dataset_urn)]
                  | none => [])
              ++ [.wu (.subtypes (view ++ "-subtypes") dataset_urn ["view"])]
              ++ (match pyDictGet properties "view_definition" with
                  | some s => [.wu (.viewProps dataset_urn s)]
                  | none => [])
              ++ getDomainWu src dataset_name dataset_urn,
            none )

/-! ## Profiling (`is_dataset_eligible_for_profiling`,
`loop_profiler_requests`) -/

/-- `is_dataset_eligible_for_profiling`: the table pattern and the
profile pattern must both allow the dataset, and the candidate list,
when one was computed, must contain it (`None` admits everything). -/
def is_dataset_eligible_for_profiling (cfg : SQLAlchemyConfig)
    (dataset_name : String) (profile_candidates : Option (List String)) : Bool :=
  (cfg.table_pattern.allowed dataset_name
      && cfg.profile_pattern.allowed dataset_name)
    && (profile_candidates.isNone
        || (profile_candidates.isSome
            && (profile_candidates.getD []).contains dataset_name))

/-- The body of the `for table in inspector.get_table_names(schema)`
loop of `loop_profiler_requests`: standardize, build the identifier,
check eligibility (reporting a drop only when
`report_dropped_profiles` is set), normalise, dedup on the seen-set,
skip silently any dataset recorded under the `MISSING_COLUMN_INFO`
warning key, then apply the partition checks and yield the request. -/
def loopProfilerGo (src : SourceCtx) (profile_candidates : Option (List String))
    (warnings : List (String × List String)) :
    List String → String → List String → List Ev
  | [], _, _ => []
  | t :: rest, schema, tables_seen =>
    let st := src.standardize schema t
    let schema' := st.1
    let table := st.2
    let dataset_name0 := src.identifier schema' table
    if !is_dataset_eligible_for_profiling src.cfg dataset_name0 profile_candidates
    then
      (if src.cfg.profiling.report_dropped_profiles then
        [Ev.dropped ("profile of " ++ dataset_name0)]
      else [])
        ++ loopProfilerGo src profile_candidates warnings rest schema' tables_seen
    else
      let dataset_name := src.normalise dataset_name0
      if tables_seen.contains dataset_name then
        loopProfilerGo src profile_candidates warnings rest schema' tables_seen
      else
        let seen' := dataset_name :: tables_seen
        let missingSkip :=
          match warnings.lookup MISSING_COLUMN_INFO with
          | some reasons => reasons.contains dataset_name
          | none => false
        if missingSkip then
          loopProfilerGo src profile_candidates warnings rest schema' seen'
        else
          let pq := src.generate_partition_profiler_query schema' table
            src.cfg.profiling.partition_datetime
          let partition := pq.1
          let custom_sql := pq.2
          if partition.isNone
              && (src.is_table_partitioned none schema' table == some true) then
            Ev.warning
                "profile skipped as partitioned table is empty or partition id was invalid"
                dataset_name
              :: loopProfilerGo src profile_candidates warnings rest schema' seen'
          else if partition.isSome
              && !src.cfg.profiling.partition_profiling_enabled then
            loopProfilerGo src profile_candidates warnings rest schema' seen'
          else
            Ev.profiled dataset_name
              :: Ev.profileRequest dataset_name schema' table partition custom_sql
              :: loopProfilerGo src profile_candidates warnings rest schema' seen'

/-- `loop_profiler_requests`: compute the profile-candidate list once
per schema (when one of the profiling limits asks for it; the
base-class `generate_profile_candidates` raises `NotImplementedError`,
which is treated as no candidate list), then run the loop body.
`warnings` is the report's warning store at entry; `now` is the current
UTC time.  An exception from the candidate generator (other than
`NotImplementedError`) or from the table enumeration propagates. -/
def loopProfilerRequests (src : SourceCtx) (insp : Inspector) (schema : String)
    (warnings : List (String × List String)) (now : Int) :
    List Ev × Option String :=
  let wantCandidates :=
    src.cfg.profiling.profile_if_updated_since_days.isSome
      || src.cfg.profiling.profile_table_size_limit.isSome
      || src.cfg.profiling.profile_table_row_limit.isNone
  let candRes : CandResult :=
    if wantCandidates then
      let threshold_time : Option Int :=
        match src.cfg.profiling.profile_if_updated_since_days with
        | some days => some (now - days)
        | none => none
      src.generate_profile_candidates threshold_time schema
    else
      CandResult.ok none
  match candRes with
  | .exn e => ([], some e)
  | .notImplemented =>
      (match insp.get_table_names schema with
       | .exn e => ([], some e)
       | .ok tables => (loopProfilerGo src none warnings tables schema [], none))
  | .ok profile_candidates =>
      (match insp.get_table_names schema with
       | .exn e => ([], some e)
       | .ok tables =>
          (loopProfilerGo src profile_candidates warnings tables schema [], none))

/-- The dataset name computed for one loop iteration: standardize, build
the identifier, normalise. -/
def datasetNameOf (src : SourceCtx) (schema t : String) : String :=
  src.normalise
    (src.identifier (src.standardize schema t).1 (src.standardize schema t).2)

/-! # Theorems -/

/-- C7: `is_dataset_eligible_for_profiling` returns true for a dataset
name iff `table_pattern` allows it, `profile_pattern` allows it, and the
profile-candidate list is either `None` (all tables are candidates) or
contains the dataset name. -/
theorem is_dataset_eligible_for_profiling_iff (cfg : SQLAlchemyConfig)
    (dataset_name : String) (profile_candidates : Option (List String)) :
    is_dataset_eligible_for_profiling cfg dataset_name profile_candidates = true ↔
      (cfg.table_pattern.allowed dataset_name = true
        ∧ cfg.profile_pattern.allowed dataset_name = true
        ∧ (profile_candidates = none
            ∨ ∃ l, profile_candidates = some l ∧ dataset_name ∈ l)) := by
  cases profile_candidates with
  | none =>
      simp [is_dataset_eligible_for_profiling, and_assoc]
  | some l =>
      simp [is_dataset_eligible_for_profiling, and_assoc, List.contains]

/-- C9: for every constructed config, when `table_pattern` is specified
and `view_pattern` is not, the construction-time validator makes
`view_pattern` equal to `table_pattern`. -/
theorem view_pattern_defaults_to_table_pattern (v : RawPatternValues)
    (p : AllowDenyPattern)
    (h1 : v.table_pattern = some p) (h2 : v.view_pattern = none) :
    (constructPatterns v).view_pattern = (constructPatterns v).table_pattern
      ∧ (constructPatterns v).view_pattern = p := by
  simp [constructPatterns, view_pattern_is_table_pattern_unless_specified, h1, h2]

/-- Witness for C9 at a concrete raw-values dict. -/
theorem view_pattern_defaults_to_table_pattern_witness :
    (constructPatterns
        { table_pattern := some { allowedFn := fun s => s == "analytics.t" },
          view_pattern := none }).view_pattern
      = (constructPatterns
        { table_pattern := some { allowedFn := fun s => s == "analytics.t" },
          view_pattern := none }).table_pattern := by
  exact (view_pattern_defaults_to_table_pattern _ _ rfl rfl).1

/-- Folding the domain map with overwrite-on-match computes the last
match: the first match of the reversed list. -/
theorem foldl_domain_override (resolve : String → String) (dn : String)
    (l : List (String × AllowDenyPattern)) (init : Option String) :
    l.foldl
        (fun acc dp =>
          if dp.2.allowed dn then some (makeDomainUrn (resolve dp.1)) else acc)
        init =
      match l.reverse.find? (fun dp => dp.2.allowed dn) with
      | some dp => some (makeDomainUrn (resolve dp.1))
      | none => init := by
  induction l generalizing init with
  | nil => simp
  | cons a l ih =>
      rw [List.foldl_cons, ih]
      rw [List.reverse_cons, List.find?_append]
      cases hfind : l.reverse.find? (fun dp => dp.2.allowed dn) with
      | some dp => simp [hfind]
      | none =>
          cases ha : a.2.allowed dn with
          | true => simp [hfind, List.find?, ha]
          | false => simp [hfind, List.find?, ha]

/-- C5: `_gen_domain_urn` returns the domain of the last matching
pattern of the configured domain map in declaration order — later
entries override earlier overlapping matches; no match yields `None`. -/
theorem gen_domain_urn_last_match_wins (src : SourceCtx) (dataset_name : String) :
    gen_domain_urn src dataset_name =
      (src.cfg.domain.reverse.find? (fun dp => dp.2.allowed dataset_name)).map
        (fun dp => makeDomainUrn (src.resolveDomain dp.1)) := by
  rw [gen_domain_urn, foldl_domain_override]
  cases src.cfg.domain.reverse.find? (fun dp => dp.2.allowed dataset_name) with
  | some dp => simp
  | none => simp

/-- C6 counterexample: starting from the module-level registry, register
the fresh native type 100 first with output `Str` and then with output
`Number`; `get_column_type` on an instance of type 100 uses the later
registration (`Number`), not the earlier one (`Str`): the dict write in
`register_custom_type` overwrites. -/
theorem register_custom_type_first_wins_cex :
    (get_column_type
        (register_custom_type
          (register_custom_type initialRegistry 100 (some CanonicalType.Str))
          100 (some CanonicalType.Number))
        "schema.table" { mro := [100, 200, 201] }).1 = CanonicalType.Number
      ∧ CanonicalType.Number ≠ CanonicalType.Str := by
  decide

/-- Registering a key absent from the dict appends it. -/
theorem dictInsertNat_fresh (m : List (Nat × CanonicalType)) (tp : Nat)
    (v : CanonicalType) (h : ∀ p ∈ m, p.1 ≠ tp) :
    dictInsertNat m tp v = m ++ [(tp, v)] := by
  rw [dictInsertNat, if_neg]
  simp only [List.any_eq_true, not_exists, not_and]
  intro p hp
  simpa using h p hp

/-- Re-registering the last key replaces its value in place. -/
theorem dictInsertNat_replace_last (m : List (Nat × CanonicalType)) (tp : Nat)
    (v w : CanonicalType) (h : ∀ p ∈ m, p.1 ≠ tp) :
    dictInsertNat (m ++ [(tp, v)]) tp w = m ++ [(tp, w)] := by
  have hmap : m.map (fun p => if p.1 == tp then (tp, w) else p) = m := by
    conv_rhs => rw [← List.map_id m]
    apply List.map_congr_left
    intro p hp
    simp [h p hp]
  rw [dictInsertNat, if_pos (by simp)]
  rw [List.map_append, hmap]
  simp

/-- `findMapped` skips every non-matching entry. -/
theorem findMapped_skip (m l : List (Nat × CanonicalType)) (ct : ColumnTypeVal)
    (h : ∀ p ∈ m, isInstanceOf ct p.1 = false) :
    findMapped (m ++ l) ct = findMapped l ct := by
  induction m with
  | nil => simp
  | cons p m ih =>
      rw [List.cons_append, findMapped, if_neg]
      · exact ih (fun q hq => h q (List.mem_cons_of_mem p hq))
      · simp [h p (List.mem_cons_self p m)]

/-- C6 amended: when `register_custom_type` is called twice with the
same native type and different outputs, the later registration wins:
`get_column_type` maps an instance of that type to the later output
type (silently). -/
theorem register_custom_type_last_wins (reg : TypeRegistry) (tp : Nat)
    (o1 o2 : CanonicalType) (dataset_name : String) (ct : ColumnTypeVal)
    (hmro : ct.mro = [tp])
    (hkeys : ∀ p ∈ reg.mapping, p.1 ≠ tp) :
    get_column_type
        (register_custom_type (register_custom_type reg tp (some o1)) tp (some o2))
        dataset_name ct = (o2, none) := by
  have hinst : ∀ p ∈ reg.mapping, isInstanceOf ct p.1 = false := by
    intro p hp
    simp only [isInstanceOf, hmro]
    simp only [List.contains_cons, List.contains_nil, Bool.or_false,
      beq_eq_false_iff_ne, ne_eq]
    intro hc
    exact hkeys p hp hc
  have h1 : register_custom_type reg tp (some o1) =
      { reg with mapping := reg.mapping ++ [(tp, o1)] } := by
    simp [register_custom_type, dictInsertNat_fresh reg.mapping tp o1 hkeys]
  have h2 : register_custom_type { reg with mapping := reg.mapping ++ [(tp, o1)] }
      tp (some o2) = { reg with mapping := reg.mapping ++ [(tp, o2)] } := by
    simp [register_custom_type, dictInsertNat_replace_last reg.mapping tp o1 o2 hkeys]
  have hfind : findMapped (reg.mapping ++ [(tp, o2)]) ct = some o2 := by
    rw [findMapped_skip reg.mapping _ ct hinst]
    simp [findMapped, isInstanceOf, hmro]
  rw [h1, h2, get_column_type]
  simp [hfind]

/-- Witness for the amended C6 at concrete inputs. -/
theorem register_custom_type_last_wins_witness :
    get_column_type
        (register_custom_type
          (register_custom_type initialRegistry 150 (some CanonicalType.Date))
          150 (some CanonicalType.Time))
        "s.t" { mro := [150] } = (CanonicalType.Time, none) := by
  exact register_custom_type_last_wins initialRegistry 150
    CanonicalType.Date CanonicalType.Time "s.t" { mro := [150] } rfl (by decide)

/-- `_get_columns` produces only column-fetch and warning events — never
a work unit. -/
theorem sqlGetColumns_no_workunits (dataset_name : String) (insp : Inspector)
    (schema table : String) :
    ∀ e ∈ (sqlGetColumns dataset_name insp schema table).1, ∀ w, e ≠ Ev.wu w := by
  intro e he w
  cases h : insp.get_columns table schema with
  | ok cols =>
      rw [sqlGetColumns, h] at he
      dsimp only at he
      by_cases hl : (cols.length == 0) = true
      · rw [if_pos hl] at he
        simp at he
        rcases he with he | he <;> simp [he]
      · rw [if_neg hl] at he
        simp at he
        simp [he]
  | keyError =>
      rw [sqlGetColumns, h] at he
      simp at he
      rcases he with he | he <;> simp [he]
  | exn msg =>
      rw [sqlGetColumns, h] at he
      simp at he
      rcases he with he | he <;> simp [he]

/-- C3: `_process_table` registers the entity with the stale-entity
tracker before any work unit for the table is yielded: its event trace
decomposes as a work-unit-free prefix (the column fetch and its
warnings) followed by the tracker registration; in particular the
registration is in the trace for every adapter behaviour, including
every one that raises later. -/
theorem processTable_registers_before_emission (src : SourceCtx) (insp : Inspector)
    (dataset_name schema table : String) :
    Ev.addState "table"
        (makeDatasetUrn src.platform dataset_name src.cfg.platform_instance
          src.cfg.env)
      ∈ (processTable src insp dataset_name schema table).1
    ∧ ∃ pre post,
        (processTable src insp dataset_name schema table).1 =
            pre
              ++ Ev.addState "table"
                  (makeDatasetUrn src.platform dataset_name
                    src.cfg.platform_instance src.cfg.env)
                :: post
          ∧ ∀ e ∈ pre, ∀ w, e ≠ Ev.wu w := by
  constructor
  · simp [processTable]
  · exact ⟨(sqlGetColumns dataset_name insp schema table).1,
      (processTableAfterReg src insp dataset_name schema table
        (makeDatasetUrn src.platform dataset_name src.cfg.platform_instance
          src.cfg.env)
        (sqlGetColumns dataset_name insp schema table).2).1,
      rfl, sqlGetColumns_no_workunits dataset_name insp schema table⟩

/-- C4: a fresh table denied by `table_pattern` contributes exactly a
scanned event and one dropped event: no column fetch, no tracker
registration, no work unit, and the loop continues with the identifier
added to the seen-set. -/
theorem loop_tables_denied_table (src : SourceCtx) (insp : Inspector)
    (t : String) (rest : List String) (schema : String)
    (tables_seen : List String)
    (hseen : tables_seen.contains (datasetNameOf src schema t) = false)
    (hdeny : src.cfg.table_pattern.allowed (datasetNameOf src schema t) = false) :
    loopTablesGo src insp (t :: rest) schema tables_seen =
        Ev.scanned (datasetNameOf src schema t) "table"
          :: Ev.dropped (datasetNameOf src schema t)
          :: loopTablesGo src insp rest (src.standardize schema t).1
              (datasetNameOf src schema t :: tables_seen)
      ∧ (List.count (Ev.dropped (datasetNameOf src schema t))
          [Ev.scanned (datasetNameOf src schema t) "table",
           Ev.dropped (datasetNameOf src schema t)] = 1)
      ∧ ∀ e ∈ [Ev.scanned (datasetNameOf src schema t) "table",
               Ev.dropped (datasetNameOf src schema t)],
          (∀ tb sc, e ≠ Ev.colFetch tb sc) ∧ (∀ k u, e ≠ Ev.addState k u)
            ∧ (∀ w, e ≠ Ev.wu w) := by
  refine ⟨?_, ?_, ?_⟩
  · rw [loopTablesGo]
    simp only [datasetNameOf] at hseen hdeny
    simp at hseen
    simp [hseen, hdeny, datasetNameOf]
  · simp [List.count_cons]
  · intro e he
    simp at he
    rcases he with he | he <;> subst he <;> exact ⟨by simp, by simp, by simp⟩

/-! ### Concrete fixtures for the witnesses -/

/-- A concrete profiling sub-config. -/
def fixtureProfiling : GEProfilingConfig :=
  { enabled := true
    profile_if_updated_since_days := none
    profile_table_size_limit := none
    profile_table_row_limit := some 1000
    partition_profiling_enabled := true
    partition_datetime := none
    report_dropped_profiles := false }

/-- A concrete config whose table pattern is the given predicate and
whose other patterns allow everything. -/
def fixtureCfg (tableAllow : String → Bool) : SQLAlchemyConfig :=
  { schema_pattern := AllowDenyPattern.allowAll
    table_pattern := { allowedFn := tableAllow }
    view_pattern := AllowDenyPattern.allowAll
    profile_pattern := AllowDenyPattern.allowAll
    domain := []
    include_views := true
    include_tables := true
    include_table_location_lineage := true
    profiling := fixtureProfiling
    platform_instance := none
    env := "PROD" }

/-- A concrete source with the base-class hooks. -/
def fixtureSrc (tableAllow : String → Bool) : SourceCtx :=
  { platform := "impala"
    cfg := fixtureCfg tableAllow
    standardize := baseStandardize
    identifier := baseIdentifier
    normalise := baseNormalise
    generate_partition_profiler_query := fun _ _ _ => (none, none)
    is_table_partitioned := fun _ _ _ => none
    generate_profile_candidates := fun _ _ => CandResult.notImplemented
    resolveDomain := fun s => s
    reg := initialRegistry }

/-- A concrete benign inspector. -/
def fixtureInspector : Inspector :=
  { get_table_names := fun _ => .ok ["t1"]
    get_view_names := fun _ => .ok ["v1"]
    get_columns := fun _ _ =>
      .ok [{ name := "c1", colType := { mro := [TypeIds.Integer] },
             nullable := true, comment := none, full_type := some "int" }]
    get_pk_constraint := fun _ _ => .ok (.dict [])
    get_foreign_keys := fun _ _ => .ok []
    get_table_comment := fun _ _ => .notImplemented
    get_view_definition := fun _ _ => .notImplemented
    db_name := .ok "db1" }

/-- Witness for C4 at a concrete denied table. -/
theorem loop_tables_denied_table_witness :
    loopTablesGo (fixtureSrc (fun _ => false)) fixtureInspector ["t1"] "s" [] =
        Ev.scanned (datasetNameOf (fixtureSrc (fun _ => false)) "s" "t1") "table"
          :: Ev.dropped (datasetNameOf (fixtureSrc (fun _ => false)) "s" "t1")
          :: loopTablesGo (fixtureSrc (fun _ => false)) fixtureInspector []
              (((fixtureSrc (fun _ => false)).standardize "s" "t1").1)
              [datasetNameOf (fixtureSrc (fun _ => false)) "s" "t1"] := by
  exact (loop_tables_denied_table (fixtureSrc (fun _ => false)) fixtureInspector
    "t1" [] "s" [] rfl rfl).1

/-- C2: error isolation in `loop_tables`.  First, an exception raised
while enumerating the tables of a schema is caught at the schema level:
the loop reports one schema-keyed failure and processes no table of
that schema (and the run does not abort — the loop returns normally).
Second, an exception raised while processing a single table is caught
inside the loop: it records one warning keyed by that table
(`f"{schema}.{table}"`) and the loop continues with the remaining
tables. -/
theorem loop_tables_error_isolation (src : SourceCtx) (insp : Inspector) :
    (∀ schema e, insp.get_table_names schema = PyResult.exn e →
        loopTables src insp schema = [Ev.failure schema ("Tables error: " ++ e)])
    ∧ (∀ t rest schema tables_seen e,
        tables_seen.contains (datasetNameOf src schema t) = false →
        src.cfg.table_pattern.allowed (datasetNameOf src schema t) = true →
        (processTable src insp (datasetNameOf src schema t)
            (src.standardize schema t).1 (src.standardize schema t).2).2 = some e →
        loopTablesGo src insp (t :: rest) schema tables_seen =
          Ev.scanned (datasetNameOf src schema t) "table"
            :: ((processTable src insp (datasetNameOf src schema t)
                  (src.standardize schema t).1 (src.standardize schema t).2).1
                ++ Ev.warning
                    ((src.standardize schema t).1 ++ "."
                      ++ (src.standardize schema t).2)
                    ("Ingestion error: " ++ e)
                  :: loopTablesGo src insp rest (src.standardize schema t).1
                      (datasetNameOf src schema t :: tables_seen))) := by
  constructor
  · intro schema e h
    rw [loopTables, h]
  · intro t rest schema tables_seen e hseen hallow herr
    rw [loopTablesGo]
    simp only [datasetNameOf] at hseen hallow herr
    simp at hseen
    simp [hseen, hallow, herr, datasetNameOf]

/-- The benign fixture inspector with a failing table enumeration. -/
def fixtureInspectorEnumFail : Inspector :=
  { fixtureInspector with get_table_names := fun _ => .exn "enum boom" }

/-- The benign fixture inspector with a failing primary-key lookup, so
that `_process_table` raises mid-processing. -/
def fixtureInspectorPkFail : Inspector :=
  { fixtureInspector with get_pk_constraint := fun _ _ => .exn "pk boom" }

/-- Witness for C2 at concrete failing inspectors. -/
theorem loop_tables_error_isolation_witness :
    loopTables (fixtureSrc (fun _ => true)) fixtureInspectorEnumFail "s" =
        [Ev.failure "s" ("Tables error: " ++ "enum boom")]
      ∧ loopTablesGo (fixtureSrc (fun _ => true)) fixtureInspectorPkFail
            ["t1"] "s" [] =
          Ev.scanned (datasetNameOf (fixtureSrc (fun _ => true)) "s" "t1") "table"
            :: ((processTable (fixtureSrc (fun _ => true)) fixtureInspectorPkFail
                  (datasetNameOf (fixtureSrc (fun _ => true)) "s" "t1")
                  ((fixtureSrc (fun _ => true)).standardize "s" "t1").1
                  ((fixtureSrc (fun _ => true)).standardize "s" "t1").2).1
                ++ Ev.warning
                    (((fixtureSrc (fun _ => true)).standardize "s" "t1").1 ++ "."
                      ++ ((fixtureSrc (fun _ => true)).standardize "s" "t1").2)
                    ("Ingestion error: " ++ "pk boom")
                  :: loopTablesGo (fixtureSrc (fun _ => true))
                      fixtureInspectorPkFail []
                      ((fixtureSrc (fun _ => true)).standardize "s" "t1").1
                      [datasetNameOf (fixtureSrc (fun _ => true)) "s" "t1"]) := by
  exact ⟨(loop_tables_error_isolation (fixtureSrc (fun _ => true))
      fixtureInspectorEnumFail).1 "s" "enum boom" rfl,
    (loop_tables_error_isolation (fixtureSrc (fun _ => true))
      fixtureInspectorPkFail).2 "t1" [] "s" [] "pk boom" rfl rfl rfl⟩

/-- Looking up the key just written by a dict assignment yields the
written value. -/
theorem pyDictGet_insert_self (m : List (String × String)) (k v : String) :
    pyDictGet (dictInsertStr m k v) k = some v := by
  by_cases hm : m.any (fun p => p.1 == k) = true
  · rw [dictInsertStr, if_pos hm]
    induction m with
    | nil => simp at hm
    | cons p m ih =>
        rw [List.map_cons]
        by_cases hpk : (p.1 == k) = true
        · rw [if_pos hpk]
          rw [pyDictGet, List.find?_cons_of_pos _ (by simp)]
          rfl
        · rw [if_neg hpk]
          have hm' : m.any (fun p => p.1 == k) = true := by
            rw [List.any_cons] at hm
            simpa [hpk] using hm
          rw [pyDictGet, List.find?_cons_of_neg _ (by simp [hpk])]
          exact ih hm'
  · rw [dictInsertStr, if_neg hm]
    have hnone : m.find? (fun p => p.1 == k) = none := by
      rw [List.find?_eq_none]
      intro p hp hpk
      exact hm (List.any_eq_true.mpr ⟨p, hp, hpk⟩)
    rw [pyDictGet, List.find?_append, hnone,
      List.find?_cons_of_pos _ (by simp)]
    rfl

/-- A dict assignment under a different key does not change a lookup. -/
theorem pyDictGet_insert_other (m : List (String × String)) (k k' v : String)
    (hne : k' ≠ k) :
    pyDictGet (dictInsertStr m k v) k' = pyDictGet m k' := by
  have hkk' : ¬ (((k, v).1 == k') = true) := by
    simp only [beq_iff_eq]
    exact fun h => hne h.symm
  by_cases hm : m.any (fun p => p.1 == k) = true
  · rw [dictInsertStr, if_pos hm]
    clear hm
    induction m with
    | nil => simp
    | cons p m ih =>
        rw [List.map_cons]
        by_cases hpk : (p.1 == k) = true
        · rw [if_pos hpk]
          have hp1 : p.1 = k := by simpa using hpk
          have hpk' : ¬ ((p.1 == k') = true) := by
            simp only [beq_iff_eq, hp1]
            exact fun h => hne h.symm
          rw [pyDictGet, pyDictGet,
            List.find?_cons_of_neg (p := fun q : String × String => q.1 == k') _ hkk',
            List.find?_cons_of_neg (p := fun q : String × String => q.1 == k') _ hpk']
          exact ih
        · rw [if_neg hpk]
          by_cases hpk' : (p.1 == k') = true
          · rw [pyDictGet, pyDictGet,
              List.find?_cons_of_pos (p := fun q : String × String => q.1 == k') _ hpk',
              List.find?_cons_of_pos (p := fun q : String × String => q.1 == k') _ hpk']
          · rw [pyDictGet, pyDictGet,
              List.find?_cons_of_neg (p := fun q : String × String => q.1 == k') _ hpk',
              List.find?_cons_of_neg (p := fun q : String × String => q.1 == k') _ hpk']
            exact ih
  · rw [dictInsertStr, if_neg hm]
    rw [pyDictGet, pyDictGet, List.find?_append]
    cases hfind : m.find? (fun p => p.1 == k') with
    | some q => simp
    | none =>
        rw [List.find?_cons_of_neg (p := fun q : String × String => q.1 == k') _ hkk']
        simp

/-- C8: in `_process_view`, when the adapter's `get_view_definition`
raises `NotImplementedError` or returns `None`, the view is still
emitted (no error escapes): its main snapshot carries the empty string
under the `view_definition` property, and the view-properties aspect is
emitted with empty view logic. -/
theorem processView_view_definition_degrades (src : SourceCtx) (insp : Inspector)
    (dataset_name schema view : String)
    (hvd : insp.get_view_definition view schema = VDefResult.notImplemented
        ∨ insp.get_view_definition view schema = VDefResult.ok none)
    (hcols : ∀ e, insp.get_columns view schema ≠ ColsResult.exn e)
    (hprops : ∃ d p l, get_table_properties insp schema view = .ok (d, p, l))
    (hdb : ∃ db, insp.db_name = PyResult.ok db) :
    (processView src insp dataset_name schema view).2 = none
    ∧ (∃ props sm,
        Ev.wu (WorkUnit.mce dataset_name
            (makeDatasetUrn src.platform dataset_name src.cfg.platform_instance
              src.cfg.env)
            props sm)
          ∈ (processView src insp dataset_name schema view).1
        ∧ pyDictGet props.customProperties "view_definition" = some "")
    ∧ Ev.wu (WorkUnit.viewProps
          (makeDatasetUrn src.platform dataset_name src.cfg.platform_instance
            src.cfg.env) "")
        ∈ (processView src insp dataset_name schema view).1 := by
  obtain ⟨d, p, l, hp⟩ := hprops
  obtain ⟨db, hdbv⟩ := hdb
  have hvdef : pyDictGet
      (dictInsertStr (dictInsertStr p "view_definition" "") "is_view" "True")
      "view_definition" = some "" := by
    rw [pyDictGet_insert_other _ _ _ _ (by decide), pyDictGet_insert_self]
  cases hc : insp.get_columns view schema with
  | exn e => exact absurd hc (hcols e)
  | keyError =>
      rcases hvd with hvd | hvd <;>
        refine ⟨by simp [processView, hc, hp, hvd, hdbv],
          ⟨{ name := view, description := d,
             customProperties :=
               dictInsertStr (dictInsertStr p "view_definition" "") "is_view"
                 "True" },
           none, ?_, hvdef⟩,
          by simp [processView, hc, hp, hvd, hdbv, hvdef]⟩ <;>
        simp [processView, hc, hp, hvd, hdbv]
  | ok cols =>
      rcases hvd with hvd | hvd <;>
        refine ⟨by simp [processView, hc, hp, hvd, hdbv],
          ⟨{ name := view, description := d,
             customProperties :=
               dictInsertStr (dictInsertStr p "view_definition" "") "is_view"
                 "True" },
           some (get_schema_metadata dataset_name src.platform
             (get_schema_fields src dataset_name cols none none).2 none),
           ?_, hvdef⟩,
          by simp [processView, hc, hp, hvd, hdbv, hvdef]⟩ <;>
        simp [processView, hc, hp, hvd, hdbv]

/-- Witness for C8 at the benign fixture (whose `get_view_definition`
raises `NotImplementedError`). -/
theorem processView_view_definition_degrades_witness :
    (processView (fixtureSrc (fun _ => true)) fixtureInspector "s.v1" "s" "v1").2
        = none
      ∧ (∃ props sm,
          Ev.wu (WorkUnit.mce "s.v1"
              (makeDatasetUrn "impala" "s.v1" none "PROD") props sm)
            ∈ (processView (fixtureSrc (fun _ => true)) fixtureInspector
                "s.v1" "s" "v1").1
          ∧ pyDictGet props.customProperties "view_definition" = some "")
      ∧ Ev.wu (WorkUnit.viewProps (makeDatasetUrn "impala" "s.v1" none "PROD") "")
          ∈ (processView (fixtureSrc (fun _ => true)) fixtureInspector
              "s.v1" "s" "v1").1 := by
  exact processView_view_definition_degrades (fixtureSrc (fun _ => true))
    fixtureInspector "s.v1" "s" "v1" (Or.inl rfl)
    (fun e h => ColsResult.noConfusion h)
    ⟨none, [], none, rfl⟩ ⟨"db1", rfl⟩

/-- C10: `loop_profiler_requests` yields no profiling request for a
table whose dataset name was recorded under the
`MISSING_COLUMN_INFO` warning key, even when it passes the
eligibility, dedup and (any) partition checks: the iteration
contributes no event at all — no request, no drop, no warning — and
the loop continues with the name added to the seen-set. -/
theorem loop_profiler_skips_missing_column_info (src : SourceCtx)
    (profile_candidates : Option (List String))
    (warnings : List (String × List String)) (t : String) (rest : List String)
    (schema : String) (tables_seen : List String) (reasons : List String)
    (helig : is_dataset_eligible_for_profiling src.cfg
        (src.identifier (src.standardize schema t).1 (src.standardize schema t).2)
        profile_candidates = true)
    (hseen : tables_seen.contains (datasetNameOf src schema t) = false)
    (hw : warnings.lookup MISSING_COLUMN_INFO = some reasons)
    (hmem : reasons.contains (datasetNameOf src schema t) = true) :
    loopProfilerGo src profile_candidates warnings (t :: rest) schema
        tables_seen =
      loopProfilerGo src profile_candidates warnings rest
        (src.standardize schema t).1 (datasetNameOf src schema t :: tables_seen) := by
  rw [loopProfilerGo]
  simp only [datasetNameOf] at hseen hmem
  simp at hseen
  simp at hmem
  simp [helig, hseen, hw, hmem, datasetNameOf]

/-- Witness for C10 at a concrete report containing the
missing-column-information warning for the table. -/
theorem loop_profiler_skips_missing_column_info_witness :
    loopProfilerGo (fixtureSrc (fun _ => true)) none
        [(MISSING_COLUMN_INFO, ["s.t1"])] ["t1"] "s" [] =
      loopProfilerGo (fixtureSrc (fun _ => true)) none
        [(MISSING_COLUMN_INFO, ["s.t1"])] []
        (((fixtureSrc (fun _ => true)).standardize "s" "t1").1)
        [datasetNameOf (fixtureSrc (fun _ => true)) "s" "t1"] := by
  exact loop_profiler_skips_missing_column_info (fixtureSrc (fun _ => true))
    none [(MISSING_COLUMN_INFO, ["s.t1"])] "t1" [] "s" [] ["s.t1"]
    rfl rfl rfl rfl

/-- Membership in the seen-set is preserved as it grows. -/
theorem contains_cons_of {seen : List String} {dn : String} (x : String)
    (hc : seen.contains dn = true) : (x :: seen).contains dn = true := by
  rw [List.contains_cons, hc, Bool.or_true]

theorem loopTablesGo_skip (src : SourceCtx) (insp : Inspector)
    (hstd : ∀ s x, (src.standardize s x).1 = s) (schema u : String)
    (l₂ l₃ : List String) :
    ∀ tables_seen : List String,
      tables_seen.contains (datasetNameOf src schema u) = true →
      loopTablesGo src insp (l₂ ++ u :: l₃) schema tables_seen =
        loopTablesGo src insp (l₂ ++ l₃) schema tables_seen := by
  induction l₂ with
  | nil =>
      intro seen hmem
      simp only [datasetNameOf, hstd] at hmem
      rw [List.nil_append, List.nil_append, loopTablesGo]
      simp only [hstd]
      rw [if_pos hmem]
  | cons v l₂ ih =>
      intro seen hmem
      rw [List.cons_append, List.cons_append, loopTablesGo, loopTablesGo]
      simp only [hstd]
      by_cases hv : seen.contains
          (src.normalise (src.identifier schema (src.standardize schema v).2)) = true
      · rw [if_pos hv, if_pos hv]
        exact ih seen hmem
      · rw [if_neg hv, if_neg hv]
        by_cases ha : src.cfg.table_pattern.allowed
            (src.normalise (src.identifier schema (src.standardize schema v).2)) = true
        · rw [if_neg (by simp [ha]), if_neg (by simp [ha])]
          rw [ih _ (contains_cons_of _ (by simp only [datasetNameOf, hstd] at hmem ⊢; exact hmem))]
        · rw [if_pos (by simp [ha]), if_pos (by simp [ha])]
          rw [ih _ (contains_cons_of _ (by simp only [datasetNameOf, hstd] at hmem ⊢; exact hmem))]




/-- C1: deduplication in `loop_tables`.  When two enumerated tables of
the same schema have equal normalized identifiers, the later occurrence
is skipped silently before the scanned counter is incremented: the
event stream — scanned counts, dropped reports, warnings, tracker
registrations and work units — is exactly the stream produced with the
later occurrence deleted from the enumeration, so only the first
occurrence is processed and emitted. -/
theorem loop_tables_dedup_second_occurrence (src : SourceCtx) (insp : Inspector)
    (hstd : ∀ s x, (src.standardize s x).1 = s) (schema t u : String)
    (hdup : datasetNameOf src schema t = datasetNameOf src schema u)
    (l₁ l₂ l₃ : List String) (tables_seen : List String) :
    loopTablesGo src insp (l₁ ++ (t :: (l₂ ++ (u :: l₃)))) schema tables_seen =
      loopTablesGo src insp (l₁ ++ (t :: (l₂ ++ l₃))) schema tables_seen := by
  induction l₁ generalizing tables_seen with
  | nil =>
      show loopTablesGo src insp (t :: (l₂ ++ (u :: l₃))) schema tables_seen =
        loopTablesGo src insp (t :: (l₂ ++ l₃)) schema tables_seen
      rw [loopTablesGo, loopTablesGo]
      simp only [hstd]
      by_cases ht : tables_seen.contains
          (src.normalise (src.identifier schema (src.standardize schema t).2)) = true
      · rw [if_pos ht, if_pos ht]
        refine loopTablesGo_skip src insp hstd schema u l₂ l₃ tables_seen ?_
        simp only [datasetNameOf, hstd] at hdup ⊢
        rw [← hdup]
        exact ht
      · rw [if_neg ht, if_neg ht]
        have hmem : ((src.normalise (src.identifier schema (src.standardize schema t).2))
              :: tables_seen).contains (datasetNameOf src schema u) = true := by
          simp only [datasetNameOf, hstd] at hdup ⊢
          rw [← hdup, List.contains_cons, beq_self_eq_true, Bool.true_or]
        by_cases ha : src.cfg.table_pattern.allowed
            (src.normalise (src.identifier schema (src.standardize schema t).2)) = true
        · rw [if_neg (by simp [ha]), if_neg (by simp [ha])]
          rw [loopTablesGo_skip src insp hstd schema u l₂ l₃ _ hmem]
        · rw [if_pos (by simp [ha]), if_pos (by simp [ha])]
          rw [loopTablesGo_skip src insp hstd schema u l₂ l₃ _ hmem]
  | cons v l₁ ih =>
      rw [List.cons_append, List.cons_append, loopTablesGo, loopTablesGo]
      simp only [hstd]
      by_cases hv : tables_seen.contains
          (src.normalise (src.identifier schema (src.standardize schema v).2)) = true
      · rw [if_pos hv, if_pos hv]
        exact ih tables_seen
      · rw [if_neg hv, if_neg hv]
        by_cases ha : src.cfg.table_pattern.allowed
            (src.normalise (src.identifier schema (src.standardize schema v).2)) = true
        · rw [if_neg (by simp [ha]), if_neg (by simp [ha])]
          rw [ih _]
        · rw [if_pos (by simp [ha]), if_pos (by simp [ha])]
          rw [ih _]

/-- Witness for C1 at a concrete duplicated table name. -/
theorem loop_tables_dedup_second_occurrence_witness :
    loopTablesGo (fixtureSrc (fun _ => true)) fixtureInspector
        ["t1", "t1", "t2"] "s" [] =
      loopTablesGo (fixtureSrc (fun _ => true)) fixtureInspector
        ["t1", "t2"] "s" [] := by
  exact loop_tables_dedup_second_occurrence (fixtureSrc (fun _ => true))
    fixtureInspector (fun _ _ => rfl) "s" "t1" "t1" rfl [] [] ["t2"] []

end DataHub
